import Mathlib

/-!
Shallow embedding of the IFEval-FC constraint-checking engine
(`src/IFEval_FC/utils.py` and `src/IFEval_FC/checkers.py`).

Strings are modelled as `List Char`.  Python's text primitives
(`str.strip`, `str.split`, `str.lower`, `str.translate`, `re` patterns)
are transcribed as executable functions on `List Char`.  Case-folding is
modelled over the ASCII range (every sampled parameter of the engine is
ASCII); Python's whitespace class is modelled in full (it is the set of
code points for which `str.isspace` holds, the same set the `re` module's
whitespace class matches for `str` patterns).
-/

namespace IFEvalFC

/-- Whitespace as Python's `str.split()` / `str.strip()` / `str.isspace`
see it: TAB..CR (9-13), the information separators 28-31, space, NEL (133),
NBSP (160), and the Unicode space separators. -/
def isSpacePy (c : Char) : Bool :=
  let n := c.toNat
  n == 32 || decide (9 ≤ n ∧ n ≤ 13) || decide (28 ≤ n ∧ n ≤ 31) ||
  n == 133 || n == 160 || n == 5760 || decide (8192 ≤ n ∧ n ≤ 8202) ||
  n == 8232 || n == 8233 || n == 8239 || n == 8287 || n == 12288

/-- Python's `string.punctuation`: the 32 ASCII punctuation characters,
i.e. the code-point ranges 33-47, 58-64, 91-96 and 123-126. -/
def isPunctPy (c : Char) : Bool :=
  let n := c.toNat
  decide (33 ≤ n ∧ n ≤ 47) || decide (58 ≤ n ∧ n ≤ 64) ||
  decide (91 ≤ n ∧ n ≤ 96) || decide (123 ≤ n ∧ n ≤ 126)

/-- ASCII model of Python's `str.lower` applied per character, as an
explicit table: each of `A`-`Z` maps to its lowercase form and every
other character is fixed. -/
def pyLower (c : Char) : Char :=
  match c with
  | 'A' => 'a' | 'B' => 'b' | 'C' => 'c' | 'D' => 'd' | 'E' => 'e'
  | 'F' => 'f' | 'G' => 'g' | 'H' => 'h' | 'I' => 'i' | 'J' => 'j'
  | 'K' => 'k' | 'L' => 'l' | 'M' => 'm' | 'N' => 'n' | 'O' => 'o'
  | 'P' => 'p' | 'Q' => 'q' | 'R' => 'r' | 'S' => 's' | 'T' => 't'
  | 'U' => 'u' | 'V' => 'v' | 'W' => 'w' | 'X' => 'x' | 'Y' => 'y'
  | 'Z' => 'z'
  | _ => c

/-- `l.dropWhile` from the left, Python `str.lstrip()`. -/
def pyStripLeft (l : List Char) : List Char := l.dropWhile isSpacePy

/-- Python `str.rstrip()`. -/
def pyStripRight (l : List Char) : List Char :=
  (l.reverse.dropWhile isSpacePy).reverse

/-- Python `str.strip()`. -/
def pyStrip (l : List Char) : List Char := pyStripRight (pyStripLeft l)

/-- Truthiness of `s.strip()` in Python: the string has some
non-whitespace character. -/
def hasContentPy (l : List Char) : Bool := l.any (fun c => !(isSpacePy c))

/-- `utils.ComparisonOption`, the closed three-valued operator enum. -/
inductive ComparisonOption where
  | exactly
  | atMost
  | atLeast
deriving DecidableEq, BEq, Repr

/-- `utils.COMPARISON_OPTIONS`, in source order. -/
def COMPARISON_OPTIONS : List ComparisonOption :=
  [ComparisonOption.exactly, ComparisonOption.atMost, ComparisonOption.atLeast]

/-- `utils.compare_count`. -/
def compare_count (result : Nat) (N : Nat) (c : ComparisonOption) : Bool :=
  match c with
  | ComparisonOption.atLeast => decide (N ≤ result)
  | ComparisonOption.atMost => decide (result ≤ N)
  | ComparisonOption.exactly => result == N

/-!  ## Highlight-span counting (`utils.count_highlighted_sections`)

`re.findall(r"\*\*.*?\*\*", s, re.DOTALL)` pairs a `**` opener with the
earliest following `**` closer, scanning left to right and resuming after
each match; on failure the scan advances one character.  The single-star
pass is analogous.  The helper functions below return, for an opener
already consumed, the distance to the earliest closer. -/

/-- Distance to the earliest occurrence of `**`
(length of the lazy `.*?` middle). -/
def findCloseDDlen : List Char → Option Nat
  | '*' :: '*' :: _ => some 0
  | _ :: rest => (findCloseDDlen rest).map (· + 1)
  | [] => none

/-- Distance to the earliest occurrence of `*`. -/
def findCloseSlen : List Char → Option Nat
  | '*' :: _ => some 0
  | _ :: rest => (findCloseSlen rest).map (· + 1)
  | [] => none

/-- All matches of `\*\*.*?\*\*` (with `re.DOTALL`), in scan order.
Structural recursion on a fuel that starts at the input length; every
step consumes at least one character, so the fuel never runs out before
the input does. -/
def findDoublesAux : Nat → List Char → List (List Char)
  | _, [] => []
  | 0, _ => []
  | fuel + 1, '*' :: '*' :: rest =>
    match findCloseDDlen rest with
    | some k =>
      ('*' :: '*' :: (rest.take k ++ ['*', '*'])) ::
        findDoublesAux fuel (rest.drop (k + 2))
    | none => findDoublesAux fuel ('*' :: rest)
  | fuel + 1, _ :: rest => findDoublesAux fuel rest

/-- All matches of `\*\*.*?\*\*`. -/
def findDoubles (l : List Char) : List (List Char) := findDoublesAux l.length l

/-- All matches of `\*.*?\*` (with `re.DOTALL`), in scan order. -/
def findSinglesAux : Nat → List Char → List (List Char)
  | _, [] => []
  | 0, _ => []
  | fuel + 1, '*' :: rest =>
    match findCloseSlen rest with
    | some k =>
      ('*' :: (rest.take k ++ ['*'])) :: findSinglesAux fuel (rest.drop (k + 1))
    | none => findSinglesAux fuel rest
  | fuel + 1, _ :: rest => findSinglesAux fuel rest

/-- All matches of `\*.*?\*`. -/
def findSingles (l : List Char) : List (List Char) := findSinglesAux l.length l

/-- Python `str.replace(pat, rep)`: replace every non-overlapping
occurrence, scanning left to right (callers use non-empty `pat`).
Fuel-structured as above. -/
def pyReplaceAux (pat rep : List Char) : Nat → List Char → List Char
  | _, [] => []
  | 0, l => l
  | fuel + 1, c :: rest =>
    if pat ≠ [] ∧ pat.isPrefixOf (c :: rest) then
      rep ++ pyReplaceAux pat rep fuel (rest.drop (pat.length - 1))
    else
      c :: pyReplaceAux pat rep fuel rest

/-- Python `str.replace(pat, rep)`. -/
def pyReplace (pat rep l : List Char) : List Char :=
  pyReplaceAux pat rep l.length l

/-- `utils.count_highlighted_sections`. -/
def count_highlighted_sections (s : List Char) : Nat :=
  let doubles := findDoubles s
  let temp := doubles.foldl (fun t h => pyReplace h [] t) s
  let singles := findSingles temp
  (doubles.filter (fun h => hasContentPy ((h.drop 2).dropLast.dropLast))).length +
  (singles.filter (fun h => hasContentPy ((h.drop 1).dropLast))).length

/-!  ## Tokenization (`utils.clean_and_split`) -/

/-- Python `str.split()` (no separator): split on runs of whitespace,
discarding empty tokens.  `acc` holds the current token, reversed. -/
def splitWsAux : List Char → List Char → List (List Char)
  | [], acc => if acc.isEmpty then [] else [acc.reverse]
  | c :: rest, acc =>
    if isSpacePy c then
      if acc.isEmpty then splitWsAux rest []
      else acc.reverse :: splitWsAux rest []
    else splitWsAux rest (c :: acc)

/-- Python `str.split()`. -/
def pySplitWs (l : List Char) : List (List Char) := splitWsAux l []

/-- `utils.clean_and_split`: translate every punctuation character to a
space, optionally lower-case, then split on whitespace. -/
def clean_and_split (text : List Char) (lower : Bool) : List (List Char) :=
  let cleaned := text.map (fun c => if isPunctPy c then ' ' else c)
  if lower then pySplitWs (cleaned.map pyLower) else pySplitWs cleaned

/-- Python `x in xs` for a list of strings. -/
def listMem (x : List Char) (xs : List (List Char)) : Bool :=
  xs.any (fun y => decide (y = x))

/-- `KeywordsPresenceChecker.check_following`. -/
def keywords_presence_check (list_of_keywords : List (List Char))
    (must_include : Bool) (arg_value : List Char) : Bool :=
  let words := clean_and_split arg_value true
  let keyword_lower := list_of_keywords.map (List.map pyLower)
  if must_include then
    keyword_lower.all (fun kw => listMem kw words)
  else
    keyword_lower.all (fun kw => !(listMem kw words))

/-- `KeywordFrequencyChecker.check_following`. -/
def keyword_frequency_check (keyword : List Char) (N : Nat)
    (comparison_option : ComparisonOption) (arg_value : List Char) : Bool :=
  let words := clean_and_split arg_value true
  let count := words.countP (fun w => decide (w = keyword.map pyLower))
  compare_count count N comparison_option

/-- `LetterFrequencyChecker.check_following` (the letter parameter is a
single character sampled from `string.ascii_lowercase`). -/
def letter_frequency_check (letter : Char) (N : Nat)
    (comparison_option : ComparisonOption) (arg_value : List Char) : Bool :=
  let count := (arg_value.map pyLower).count (pyLower letter)
  compare_count count N comparison_option

/-!  ## Splitting on an explicit separator (`str.split(sep)`) -/

/-- Python `str.split(sep)` for non-empty `sep`: split at every
non-overlapping occurrence, keeping empty parts.  Fuel-structured;
`acc` holds the current part, reversed. -/
def splitSepAux (sep : List Char) : Nat → List Char → List Char → List (List Char)
  | _, [], acc => [acc.reverse]
  | 0, l, acc => [acc.reverse ++ l]
  | fuel + 1, c :: rest, acc =>
    if sep ≠ [] ∧ sep.isPrefixOf (c :: rest) then
      acc.reverse :: splitSepAux sep fuel (rest.drop (sep.length - 1)) []
    else
      splitSepAux sep fuel rest (c :: acc)

/-- Python `str.split(sep)` for non-empty `sep`. -/
def pySplitSep (sep l : List Char) : List (List Char) :=
  splitSepAux sep l.length l []

/-- `SpacesInBetweenChecker.check_following`. -/
def spaces_in_between_check (N : Nat) (arg_value : List Char) : Bool :=
  let SEPARATOR : List Char := List.replicate N ' '
  if arg_value ≠ pyStrip arg_value then false
  else if !(arg_value.contains ' ') then true
  else
    let parts := pySplitSep SEPARATOR arg_value
    if parts.length < 2 then false
    else if parts.any (fun p => p.isEmpty) then false
    else if List.intercalate SEPARATOR parts ≠ arg_value then false
    else if parts.any (fun p => p.contains ' ') then false
    else true

/-!  ## Sentence segmentation (`utils.extract_sentences`)

Each `re.sub` pass of the source is transcribed as a matcher fed to a
generic scan-and-replace driver.  A matcher, applied at a position,
returns `some (replacement, extra)` when the pattern matches there,
consuming `extra + 1` characters; the driver then resumes after the
consumed text, exactly as `re.sub` does, and otherwise advances one
character. -/

/-- Generic `re.sub` driver (fuel-structured; fuel starts at the input
length and every step consumes at least one character). -/
def applySubAux (m : List Char → Option (List Char × Nat)) :
    Nat → List Char → List Char
  | _, [] => []
  | 0, l => l
  | fuel + 1, c :: rest =>
    match m (c :: rest) with
    | some (rep, extra) => rep ++ applySubAux m fuel (rest.drop extra)
    | none => c :: applySubAux m fuel rest

/-- Generic `re.sub` driver. -/
def applySub (m : List Char → Option (List Char × Nat)) (l : List Char) :
    List Char := applySubAux m l.length l

/-- Substring containment, Python `pat in text` (for non-empty `pat`). -/
def containsSub (pat : List Char) : List Char → Bool
  | [] => pat.isEmpty
  | c :: rest => pat.isPrefixOf (c :: rest) || containsSub pat rest

/-- First alternative (in list order) for which the matcher succeeds:
the semantics of a regex alternation of non-overlapping literals. -/
def firstMatch (f : α → Option β) : List α → Option β
  | [] => none
  | x :: xs =>
    match f x with
    | some r => some r
    | none => firstMatch f xs

/-- Try a literal title followed by a period: one alternative of the
`_PREFIXES` pattern `(Mr|St|Mrs|Ms|Dr)[.]`, replaced by `\1<prd>`. -/
def tryTitleDot (l w : List Char) : Option (List Char × Nat) :=
  if (w ++ ['.']).isPrefixOf l then some (w ++ "<prd>".data, w.length) else none

/-- The `_PREFIXES` pass, alternatives in source order. -/
def prefixesM (l : List Char) : Option (List Char × Nat) :=
  firstMatch (tryTitleDot l)
    ["Mr".data, "St".data, "Mrs".data, "Ms".data, "Dr".data]

/-- Try a period followed by a literal domain word: one alternative of
the `_WEBSITES` pattern `[.](com|net|org|io|gov|edu|me)`, replaced by
`<prd>\1`. -/
def tryDotWord (l w : List Char) : Option (List Char × Nat) :=
  if ('.' :: w).isPrefixOf l then some ("<prd>".data ++ w, w.length) else none

/-- The `_WEBSITES` pass, alternatives in source order. -/
def websitesM (l : List Char) : Option (List Char × Nat) :=
  firstMatch (tryDotWord l)
    ["com".data, "net".data, "org".data, "io".data, "gov".data,
     "edu".data, "me".data]

/-- The `_DIGITS [.] _DIGITS` pass, replaced by `\1<prd>\2`. -/
def digitsM : List Char → Option (List Char × Nat)
  | a :: '.' :: b :: _ =>
    if a.isDigit && b.isDigit then
      some ([a] ++ "<prd>".data ++ [b], 2)
    else none
  | _ => none

/-- Length of the run of periods at the head of the input. -/
def dotRun : List Char → Nat
  | '.' :: rest => dotRun rest + 1
  | _ => 0

/-- The `_MULTIPLE_DOTS` pass `\.{2,}` (greedy), replaced by
`<prd>` repeated once per dot followed by `<stop>`. -/
def multiDotsM (l : List Char) : Option (List Char × Nat) :=
  let n := dotRun l
  if 2 ≤ n then
    some ((List.replicate n "<prd>".data).flatten ++ "<stop>".data, n - 1)
  else none

/-- ASCII `[A-Z]`. -/
def isUpperAscii (c : Char) : Bool := decide ('A' ≤ c ∧ c ≤ 'Z')

/-- The `\s _ALPHABETS [.] ` pass (whitespace, letter, period, space),
replaced by ` \1<prd> `. -/
def singleLetterM : List Char → Option (List Char × Nat)
  | w :: a :: '.' :: ' ' :: _ =>
    if isSpacePy w && a.isAlpha then
      some ([' ', a] ++ "<prd>".data ++ [' '], 3)
    else none
  | _ => none

/-- Try one `_STARTERS` alternative at the head of `l`: a literal word,
followed by one `\s` character when the flag is set (the `He\s`-style
alternatives; the whitespace character is part of the match).  Returns
the matched text and its length. -/
def tryStarter (l : List Char) (alt : List Char × Bool) : Option (List Char × Nat) :=
  if alt.1.isPrefixOf l then
    if alt.2 then
      match l.drop alt.1.length with
      | c :: _ =>
        if isSpacePy c then some (alt.1 ++ [c], alt.1.length + 1) else none
      | [] => none
    else some (alt.1, alt.1.length)
  else none

/-- The `_STARTERS` alternatives, in source order:
`(Mr|Mrs|Ms|Dr|Prof|Capt|Cpt|Lt|He\s|She\s|It\s|They\s|Their\s|Our\s|We\s|But\s|However\s|That\s|This\s|Wherever)`;
the flag marks the alternatives carrying a trailing `\s`. -/
def STARTERS : List (List Char × Bool) :=
  [("Mr".data, false), ("Mrs".data, false), ("Ms".data, false),
   ("Dr".data, false), ("Prof".data, false), ("Capt".data, false),
   ("Cpt".data, false), ("Lt".data, false), ("He".data, true),
   ("She".data, true), ("It".data, true), ("They".data, true),
   ("Their".data, true), ("Our".data, true), ("We".data, true),
   ("But".data, true), ("However".data, true), ("That".data, true),
   ("This".data, true), ("Wherever".data, false)]

/-- The `_STARTERS` alternation. -/
def matchStarter (l : List Char) : Option (List Char × Nat) :=
  firstMatch (tryStarter l) STARTERS

/-- The two-letter fallback of the `_ACRONYMS " " _STARTERS` pass: after
`A.B.` (already matched), expect a space then a starter; replacement
`\1<stop> \2`. -/
def acronymShort (a b : Char) (rest : List Char) : Option (List Char × Nat) :=
  match rest with
  | ' ' :: rest2 =>
    (match matchStarter rest2 with
     | some (st, k) =>
       some ([a, '.', b, '.'] ++ "<stop>".data ++ [' '] ++ st, 4 + k)
     | none => none)
  | _ => none

/-- The `_ACRONYMS " " _STARTERS` pass: `([A-Z][.][A-Z][.](?:[A-Z][.])?)`
then a space then a starter; the optional third letter is tried greedily
first, falling back to the two-letter form. -/
def acronymStarterM : List Char → Option (List Char × Nat)
  | a :: '.' :: b :: '.' :: rest =>
    if isUpperAscii a && isUpperAscii b then
      match rest with
      | c :: '.' :: ' ' :: rest2 =>
        if isUpperAscii c then
          match matchStarter rest2 with
          | some (st, k) =>
            some ([a, '.', b, '.', c, '.'] ++ "<stop>".data ++ [' '] ++ st, 6 + k)
          | none => acronymShort a b rest
        else acronymShort a b rest
      | _ => acronymShort a b rest
    else none
  | _ => none

/-- The three-letter `_ALPHABETS[.]` triple pass, replaced by
`\1<prd>\2<prd>\3<prd>`. -/
def tripleM : List Char → Option (List Char × Nat)
  | a :: '.' :: b :: '.' :: c :: '.' :: _ =>
    if a.isAlpha && b.isAlpha && c.isAlpha then
      some ([a] ++ "<prd>".data ++ [b] ++ "<prd>".data ++ [c] ++ "<prd>".data, 5)
    else none
  | _ => none

/-- The two-letter `_ALPHABETS[.]` double pass, replaced by
`\1<prd>\2<prd>`. -/
def doubleM : List Char → Option (List Char × Nat)
  | a :: '.' :: b :: '.' :: _ =>
    if a.isAlpha && b.isAlpha then
      some ([a] ++ "<prd>".data ++ [b] ++ "<prd>".data, 3)
    else none
  | _ => none

/-- The `_SUFFIXES` alternation `(Inc|Ltd|Jr|Sr|Co)`. -/
def trySuffixWord (l : List Char) : Option (List Char × Nat) :=
  firstMatch (fun w => tryStarter l (w, false))
    ["Inc".data, "Ltd".data, "Jr".data, "Sr".data, "Co".data]

/-- The ` _SUFFIXES[.] _STARTERS` pass, replaced by ` \1<stop> \2`. -/
def suffixStarterM : List Char → Option (List Char × Nat)
  | ' ' :: rest =>
    (match trySuffixWord rest with
     | some (suf, n) =>
       (match rest.drop n with
        | '.' :: ' ' :: rest2 =>
          (match matchStarter rest2 with
           | some (st, k) =>
             some (' ' :: (suf ++ "<stop>".data ++ [' '] ++ st), n + k + 2)
           | none => none)
        | _ => none)
     | none => none)
  | _ => none

/-- The ` _SUFFIXES[.]` pass, replaced by ` \1<prd>`. -/
def suffixM : List Char → Option (List Char × Nat)
  | ' ' :: rest =>
    (match trySuffixWord rest with
     | some (suf, n) =>
       (match rest.drop n with
        | '.' :: _ => some (' ' :: (suf ++ "<prd>".data), n + 1)
        | _ => none)
     | none => none)
  | _ => none

/-- The ` _ALPHABETS[.]` pass, replaced by ` \1<prd>`. -/
def letterDotM : List Char → Option (List Char × Nat)
  | ' ' :: a :: '.' :: _ =>
    if a.isAlpha then some ([' ', a] ++ "<prd>".data, 2) else none
  | _ => none

/-- The right-double-quotation-mark character used by the segmenter's
quote fix-up. -/
def rdqChar : Char := '”'

/-- `utils.extract_sentences`: the full rewrite pipeline of the source,
pass for pass, followed by the `<stop>` split, per-sentence strip, and
removal of a trailing empty fragment. -/
def extract_sentences (text : List Char) : List (List Char) :=
  let t0 := [' '] ++ text ++ [' ', ' ']
  let t1 := t0.map (fun c => if c = '\n' then ' ' else c)
  let t2 := applySub prefixesM t1
  let t3 := applySub websitesM t2
  let t4 := applySub digitsM t3
  let t5 := applySub multiDotsM t4
  let t6 := if containsSub "Ph.D".data t5 then
      pyReplace "Ph.D.".data "Ph<prd>D<prd>".data t5
    else t5
  let t7 := applySub singleLetterM t6
  let t8 := applySub acronymStarterM t7
  let t9 := applySub tripleM t8
  let t10 := applySub doubleM t9
  let t11 := applySub suffixStarterM t10
  let t12 := applySub suffixM t11
  let t13 := applySub letterDotM t12
  let t14 := if containsSub [rdqChar] t13 then
      pyReplace ['.', rdqChar] [rdqChar, '.'] t13
    else t13
  let t15 := if containsSub ['\x22'] t14 then
      pyReplace ['.', '\x22'] ['\x22', '.'] t14
    else t14
  let t16 := if containsSub ['!'] t15 then
      pyReplace ['!', '\x22'] ['\x22', '!'] t15
    else t15
  let t17 := if containsSub ['?'] t16 then
      pyReplace ['?', '\x22'] ['\x22', '?'] t16
    else t16
  let t18 := pyReplace ['.'] ".<stop>".data t17
  let t19 := pyReplace ['?'] "?<stop>".data t18
  let t20 := pyReplace ['!'] "!<stop>".data t19
  let t21 := pyReplace "<prd>".data ['.'] t20
  let sentences := (pySplitSep "<stop>".data t21).map pyStrip
  match sentences.getLast? with
  | some [] => sentences.dropLast
  | _ => sentences

/-- `SentenceCountChecker.check_following`. -/
def sentence_count_check (N : Nat) (comparison_option : ComparisonOption)
    (arg_value : List Char) : Bool :=
  compare_count (extract_sentences arg_value).length N comparison_option

/-!  ## Postscript detection (`utils.check_postscript`)

`PostscriptChecker.sample_arguments` draws the marker from
`{"P.S.", "P.P.S."}`, so the marker parameter is modelled as that
two-valued enumeration (the function's fallback branch for other marker
strings is never reached by the engine's own parameter schema).

`re.findall(pattern, value, re.MULTILINE)` returns a non-empty list iff
the pattern matches at some position.  The patterns are
`\s*p\.\s?s\..*$` and `\s*p\.\s?p\.\s?s.*$`; with `re.MULTILINE` the
trailing `$` matches at the end of the string or before any newline, so
`.*$` is transcribed as: greedily consume non-newline characters, then
accept at a newline or at the end. -/

/-- The postscript marker parameter: `"P.S."` or `"P.P.S."`. -/
inductive PostscriptMarker where
  | ps
  | pps
deriving DecidableEq, Repr

/-- `.*$` under `re.MULTILINE`: consume non-newline characters greedily,
then `$` holds before a newline or at the end of the string. -/
def dotStarDollarML : List Char → Bool
  | [] => true
  | c :: rest => if c = '\n' then true else dotStarDollarML rest

/-- `.*$` without `re.MULTILINE`, anchored to the end of the whole
string: `$` holds at the end or before one final trailing newline. -/
def dotStarEndOnly : List Char → Bool
  | [] => true
  | ['\n'] => true
  | c :: rest => if c = '\n' then false else dotStarEndOnly rest

/-- `s\.` followed by the given tail pattern. -/
def psTailG (fin : List Char → Bool) : List Char → Bool
  | 's' :: '.' :: r => fin r
  | _ => false

/-- `p\.\s?s\.` followed by the given tail pattern (`\s?` tried with and
without one whitespace character). -/
def psCoreG (fin : List Char → Bool) : List Char → Bool
  | 'p' :: '.' :: c :: r =>
    (isSpacePy c && psTailG fin r) || psTailG fin (c :: r)
  | _ => false

/-- `s` followed by the given tail pattern (the `P.P.S.` pattern carries
no period after the final `s`). -/
def ppsTailG (fin : List Char → Bool) : List Char → Bool
  | 's' :: r => fin r
  | _ => false

/-- `p\.\s?s` followed by the given tail pattern. -/
def ppsSecondG (fin : List Char → Bool) : List Char → Bool
  | 'p' :: '.' :: c :: r =>
    (isSpacePy c && ppsTailG fin r) || ppsTailG fin (c :: r)
  | _ => false

/-- `p\.\s?p\.\s?s` followed by the given tail pattern. -/
def ppsCoreG (fin : List Char → Bool) : List Char → Bool
  | 'p' :: '.' :: c :: r =>
    (isSpacePy c && ppsSecondG fin r) || ppsSecondG fin (c :: r)
  | _ => false

/-- `\s*` then the core pattern, with backtracking over the length of
the whitespace run. -/
def wsStarThen (core : List Char → Bool) : List Char → Bool
  | [] => core []
  | c :: rest => core (c :: rest) || (isSpacePy c && wsStarThen core rest)

/-- Does the pattern match at some position of the string?
(`re.findall` non-emptiness.) -/
def searchAnywhere (m : List Char → Bool) : List Char → Bool
  | [] => m []
  | c :: rest => m (c :: rest) || searchAnywhere m rest

/-- `utils.check_postscript`: lower-case the value, then search for the
marker's pattern under `re.MULTILINE`. -/
def check_postscript (arg_value : List Char) (postscript_marker : PostscriptMarker) : Bool :=
  let value := arg_value.map pyLower
  match postscript_marker with
  | PostscriptMarker.pps => searchAnywhere (wsStarThen (ppsCoreG dotStarDollarML)) value
  | PostscriptMarker.ps => searchAnywhere (wsStarThen (psCoreG dotStarDollarML)) value

/-- Modelled from the spec: "a case-insensitive regex tail-match for a
marker", i.e. the same marker pattern but with the postscript required
to extend to the end of the whole string (the `$` anchored at the end of
the input, not at line ends) — the reading stated by the claim and by
the source function's own docstring. -/
def postscript_at_end (arg_value : List Char) (postscript_marker : PostscriptMarker) : Bool :=
  let value := arg_value.map pyLower
  match postscript_marker with
  | PostscriptMarker.pps => searchAnywhere (wsStarThen (ppsCoreG dotStarEndOnly)) value
  | PostscriptMarker.ps => searchAnywhere (wsStarThen (psCoreG dotStarEndOnly)) value

/-!  ## JSON syntax (`json.loads` success/failure)

`JsonFormatChecker.check_following` only asks whether `json.loads`
succeeds, so the Python `json` module is modelled as a recognizer.
The grammar is the one `json.loads` accepts with its default (strict)
settings: JSON whitespace is ` \t\n\r`; strings reject raw control
characters below 0x20 and accept exactly the escapes
`\" \\ \/ \b \f \n \r \t \uXXXX`; numbers follow
`-?(0|[1-9]\d*)(\.\d+)?([eE][-+]?\d+)?`; the extension constants `NaN`,
`Infinity` and `-Infinity` are accepted; objects and arrays reject
trailing commas.  The recognizer consumes one value and returns the
remaining input.

It is fuel-structured for termination: every parsing step consumes fuel
1, at most three steps happen between two consumed input characters, and
the top-level entry point supplies fuel `3·length + 3`, which therefore
never runs out before the input is decided. -/

/-- JSON whitespace (the `json` module's `[ \t\n\r]`). -/
def isJsonWs (c : Char) : Bool :=
  c = ' ' || c = '\t' || c = '\n' || c = '\r'

/-- Skip JSON whitespace. -/
def skipJsonWs (l : List Char) : List Char := l.dropWhile isJsonWs

/-- Hexadecimal digit, for `\uXXXX` escapes. -/
def isHexDigit (c : Char) : Bool :=
  c.isDigit || decide ('a' ≤ c ∧ c ≤ 'f') || decide ('A' ≤ c ∧ c ≤ 'F')

/-- Parse the remainder of a JSON string, the opening quote already
consumed; returns the input after the closing quote. -/
def jsonStringRest : List Char → Option (List Char)
  | [] => none
  | '\x22' :: rest => some rest
  | '\\' :: e :: rest =>
    if e = '\x22' || e = '\\' || e = '/' || e = 'b' || e = 'f' ||
        e = 'n' || e = 'r' || e = 't' then
      jsonStringRest rest
    else if e = 'u' then
      match rest with
      | h1 :: h2 :: h3 :: h4 :: rest2 =>
        if isHexDigit h1 && isHexDigit h2 && isHexDigit h3 && isHexDigit h4 then
          jsonStringRest rest2
        else none
      | _ => none
    else none
  | c :: rest => if c.toNat < 32 then none else jsonStringRest rest

/-- The mandatory integer part `0|[1-9]\d*` of a JSON number. -/
def jsonIntPart : List Char → Option (List Char)
  | '0' :: rest => some rest
  | c :: rest => if c.isDigit then some (rest.dropWhile Char.isDigit) else none
  | [] => none

/-- The optional fraction part `(\.\d+)?`. -/
def jsonFracOpt (l : List Char) : List Char :=
  match l with
  | '.' :: c :: rest => if c.isDigit then rest.dropWhile Char.isDigit else l
  | _ => l

/-- The optional exponent part `([eE][-+]?\d+)?`. -/
def jsonExpOpt (l : List Char) : List Char :=
  match l with
  | e :: '+' :: d :: rest =>
    if (e = 'e' || e = 'E') && d.isDigit then rest.dropWhile Char.isDigit else l
  | e :: '-' :: d :: rest =>
    if (e = 'e' || e = 'E') && d.isDigit then rest.dropWhile Char.isDigit else l
  | e :: d :: rest =>
    if (e = 'e' || e = 'E') && d.isDigit then rest.dropWhile Char.isDigit else l
  | _ => l

/-- A JSON number at the head of the input (the scanner's `NUMBER_RE`). -/
def jsonNumberOpt (l : List Char) : Option (List Char) :=
  match l with
  | '-' :: r => (jsonIntPart r).map (fun r2 => jsonExpOpt (jsonFracOpt r2))
  | _ => (jsonIntPart l).map (fun r2 => jsonExpOpt (jsonFracOpt r2))

mutual

/-- One JSON value at the head of the input (no leading whitespace),
following the scanner's dispatch order: string, object, array, `null`,
`true`, `false`, number, `NaN`, `Infinity`, `-Infinity`. -/
def jsonValue : Nat → List Char → Option (List Char)
  | 0, _ => none
  | f + 1, l =>
    match l with
    | '\x22' :: rest => jsonStringRest rest
    | '\x7b' :: rest => jsonObject f rest
    | '[' :: rest => jsonArray f rest
    | 'n' :: 'u' :: 'l' :: 'l' :: rest => some rest
    | 't' :: 'r' :: 'u' :: 'e' :: rest => some rest
    | 'f' :: 'a' :: 'l' :: 's' :: 'e' :: rest => some rest
    | _ =>
      match jsonNumberOpt l with
      | some rest => some rest
      | none =>
        match l with
        | 'N' :: 'a' :: 'N' :: rest => some rest
        | 'I' :: 'n' :: 'f' :: 'i' :: 'n' :: 'i' :: 't' :: 'y' :: rest => some rest
        | '-' :: 'I' :: 'n' :: 'f' :: 'i' :: 'n' :: 'i' :: 't' :: 'y' :: rest => some rest
        | _ => none

/-- A JSON object body, the `{` already consumed: whitespace, then `}`
or a first key string followed by the member list. -/
def jsonObject : Nat → List Char → Option (List Char)
  | 0, _ => none
  | f + 1, l =>
    match skipJsonWs l with
    | '\x7d' :: rest => some rest
    | '\x22' :: rest =>
      (match jsonStringRest rest with
       | some r2 => jsonMembers f r2
       | none => none)
    | _ => none

/-- After an object key: `: value`, then `}` or `, "key"` and repeat
(whitespace allowed between all tokens; trailing commas rejected). -/
def jsonMembers : Nat → List Char → Option (List Char)
  | 0, _ => none
  | f + 1, l =>
    match skipJsonWs l with
    | ':' :: r =>
      (match jsonValue f (skipJsonWs r) with
       | some r2 =>
         (match skipJsonWs r2 with
          | '\x7d' :: rest => some rest
          | ',' :: rest =>
            (match skipJsonWs rest with
             | '\x22' :: r5 =>
               (match jsonStringRest r5 with
                | some r6 => jsonMembers f r6
                | none => none)
             | _ => none)
          | _ => none)
       | none => none)
    | _ => none

/-- A JSON array body, the `[` already consumed: whitespace, then `]`
or a first element. -/
def jsonArray : Nat → List Char → Option (List Char)
  | 0, _ => none
  | f + 1, l =>
    match skipJsonWs l with
    | ']' :: rest => some rest
    | l1 => jsonElems f l1

/-- Array elements: a value, then `]` or `,` and repeat (trailing
commas rejected). -/
def jsonElems : Nat → List Char → Option (List Char)
  | 0, _ => none
  | f + 1, l =>
    match jsonValue f l with
    | some r =>
      (match skipJsonWs r with
       | ']' :: rest => some rest
       | ',' :: rest => jsonElems f (skipJsonWs rest)
       | _ => none)
    | none => none

end

/-- Does `json.loads` accept the string?  Leading and trailing JSON
whitespace is skipped and the value must span the whole input. -/
def json_loads_ok (l : List Char) : Bool :=
  match jsonValue (3 * l.length + 3) (skipJsonWs l) with
  | some rest => (skipJsonWs rest).isEmpty
  | none => false

/-- Python `str.removeprefix`. -/
def removePrefixIf (pre l : List Char) : List Char :=
  if pre.isPrefixOf l then l.drop pre.length else l

/-- Python `str.removesuffix`. -/
def removeSuffixIf (suf l : List Char) : List Char :=
  if suf.isSuffixOf l then l.take (l.length - suf.length) else l

/-- The fence-stripping chain of `JsonFormatChecker.check_following`:
`strip`, `removeprefix` of three fixed casings of the `json` tag and of
the bare fence, `removesuffix` of the closing fence, `strip`. -/
def jsonStripFences (arg_value : List Char) : List Char :=
  pyStrip (removeSuffixIf "```".data
    (removePrefixIf "```".data
      (removePrefixIf "```JSON".data
        (removePrefixIf "```Json".data
          (removePrefixIf "```json".data (pyStrip arg_value))))))

/-- `JsonFormatChecker.check_following`. -/
def json_format_check (arg_value : List Char) : Bool :=
  json_loads_ok (jsonStripFences arg_value)

/-- The rendered description of the JSON-format variant
(`JsonFormatChecker.build_description`). -/
def json_format_description : List Char :=
  "The argument value must be a valid JSON object. The JSON must be syntactically correct and parseable.".data

/-!  ## The list-literal checker (`PythonListFormatChecker.check_following`)

The checker calls `ast.literal_eval` inside
`try: ... except (ValueError, SyntaxError): return False` and only
inspects whether the result is a `list` whose elements are all `str`.
The parser is standard-library code, so it is modelled as an abstract
function into the outcome classification `PyResult` below.  Crucially,
that classification keeps the exception outcomes the `except` clause
distinguishes: `ast.literal_eval` can raise exceptions outside
`(ValueError, SyntaxError)` — for instance on `'{[]: 0}'` the literal
parses and the `Dict` conversion executes `dict(zip(...))`, which
raises `TypeError` because the key `[]` is unhashable (Python's
documentation lists `TypeError`, `MemoryError` and `RecursionError`
among `literal_eval`'s possible exceptions) — and such an exception
propagates out of `check_following`. -/

/-- Classification of a parsed Python literal, as far as the checker
inspects it. -/
inductive PyVal where
  | vstr : List Char → PyVal
  | vlist : List PyVal → PyVal
  | vother : PyVal
deriving Repr

/-- The outcome of an `ast.literal_eval` call, at the granularity of
the checker's `try`/`except`: the call returns a value; or it raises a
`ValueError` or `SyntaxError`, the two classes the `except` clause
catches; or it raises an exception of any other class (such as the
`TypeError` from an unhashable container key), which the `except`
clause does not catch. -/
inductive PyResult where
  | ok : PyVal → PyResult
  | caught : PyResult
  | uncaught : PyResult
deriving Repr

/-- The outcome of a `check_following` call: a returned boolean, or an
exception propagating out of the call. -/
inductive CheckOutcome where
  | ret : Bool → CheckOutcome
  | exn : CheckOutcome
deriving DecidableEq, Repr

/-- `isinstance(item, str)`. -/
def pyValIsStr : PyVal → Bool
  | PyVal.vstr _ => true
  | _ => false

/-- `isinstance(parsed, list)` and every element a string. -/
def pyValIsListOfStrs : PyVal → Bool
  | PyVal.vlist items => items.all pyValIsStr
  | _ => false

/-- The fence-stripping chain of `PythonListFormatChecker.check_following`:
`strip`, one `startswith`-guarded prefix removal (three fixed casings of
the `python` tag, then the bare fence) with a re-`strip`, then a
`endswith`-guarded suffix removal with a re-`strip`. -/
def pythonListStripFences (arg_value : List Char) : List Char :=
  let v := pyStrip arg_value
  let v1 :=
    if "```python".data.isPrefixOf v then pyStrip (v.drop 9)
    else if "```Python".data.isPrefixOf v then pyStrip (v.drop 9)
    else if "```PYTHON".data.isPrefixOf v then pyStrip (v.drop 9)
    else if "```".data.isPrefixOf v then pyStrip (v.drop 3)
    else v
  if "```".data.isSuffixOf v1 then pyStrip (v1.take (v1.length - 3)) else v1

/-- `PythonListFormatChecker.check_following`, parametric in the
`ast.literal_eval` outcome model and transcribing its `try`/`except`
faithfully: a returned value is accepted iff it is a list of strings, a
caught `ValueError`/`SyntaxError` yields `False`, and an exception of
any other class propagates out of the call. -/
def python_list_check_run (literalEval : List Char → PyResult)
    (arg_value : List Char) : CheckOutcome :=
  match literalEval (pythonListStripFences arg_value) with
  | PyResult.ok parsed => CheckOutcome.ret (pyValIsListOfStrs parsed)
  | PyResult.caught => CheckOutcome.ret false
  | PyResult.uncaught => CheckOutcome.exn

/-!  ## The remaining variants -/

/-- The script parameter of `CyrillicGreekChecker`. -/
inductive ScriptKind where
  | cyrillic
  | greek
deriving DecidableEq, Repr

/-- A word character of the regex `\w`, modelled over the ASCII range
(ASCII letters, digits and underscore; code points outside ASCII are
treated as non-word characters). -/
def isWordRe (c : Char) : Bool := c.isAlpha || c.isDigit || c = '_'

/-- Membership in the Cyrillic blocks of the checker's pattern:
U+0400-U+04FF, U+0500-U+052F, U+2DE0-U+2DFF, U+A640-U+A69F. -/
def inCyrillicBlocks (c : Char) : Bool :=
  let n := c.toNat
  decide (0x400 ≤ n ∧ n ≤ 0x4FF) || decide (0x500 ≤ n ∧ n ≤ 0x52F) ||
  decide (0x2DE0 ≤ n ∧ n ≤ 0x2DFF) || decide (0xA640 ≤ n ∧ n ≤ 0xA69F)

/-- Membership in the Greek blocks of the checker's pattern:
U+0370-U+03FF, U+1F00-U+1FFF. -/
def inGreekBlocks (c : Char) : Bool :=
  let n := c.toNat
  decide (0x370 ≤ n ∧ n ≤ 0x3FF) || decide (0x1F00 ≤ n ∧ n ≤ 0x1FFF)

/-- `CyrillicGreekChecker.check_following`: full match of
`^[blocks 0-9 \s \W]*$`, i.e. every character is in the script blocks,
a digit, whitespace, or a non-word character. -/
def cyrillic_greek_check (script : ScriptKind) (arg_value : List Char) : Bool :=
  match script with
  | ScriptKind.cyrillic =>
    arg_value.all (fun c =>
      inCyrillicBlocks c || c.isDigit || isSpacePy c || !(isWordRe c))
  | ScriptKind.greek =>
    arg_value.all (fun c =>
      inGreekBlocks c || c.isDigit || isSpacePy c || !(isWordRe c))

/-- Number of maximal runs of `\w` characters: the token count of
`nltk.tokenize.RegexpTokenizer(r"\w+")`. -/
def countWordRunsAux : List Char → Bool → Nat
  | [], _ => 0
  | c :: rest, inWord =>
    if isWordRe c then
      if inWord then countWordRunsAux rest true
      else countWordRunsAux rest true + 1
    else countWordRunsAux rest false

/-- `WordCountChecker.check_following`. -/
def word_count_check (N : Nat) (comparison_option : ComparisonOption)
    (arg_value : List Char) : Bool :=
  compare_count (countWordRunsAux arg_value false) N comparison_option

/-- Distance to the earliest `]` reachable without crossing a newline
(the lazy `.*?` of `\[.*?\]`, without `re.DOTALL`). -/
def findCloseBracketLen : List Char → Option Nat
  | [] => none
  | ']' :: _ => some 0
  | '\n' :: _ => none
  | _ :: rest => (findCloseBracketLen rest).map (· + 1)

/-- Number of matches of `\[.*?\]` (fuel-structured scan). -/
def countPlaceholdersAux : Nat → List Char → Nat
  | _, [] => 0
  | 0, _ => 0
  | fuel + 1, '[' :: rest =>
    match findCloseBracketLen rest with
    | some k => countPlaceholdersAux fuel (rest.drop (k + 1)) + 1
    | none => countPlaceholdersAux fuel rest
  | fuel + 1, _ :: rest => countPlaceholdersAux fuel rest

/-- `PlaceholderCountChecker.check_following`. -/
def placeholder_count_check (comparison_option : ComparisonOption) (N : Nat)
    (arg_value : List Char) : Bool :=
  compare_count (countPlaceholdersAux arg_value.length arg_value) N comparison_option

/-- Index of the rightmost position `i` with `l[i] = l[i+1] = '>'`. -/
def lastDoubleGt : List Char → Option Nat
  | a :: b :: rest =>
    (match lastDoubleGt (b :: rest) with
     | some k => some (k + 1)
     | none => if a = '>' ∧ b = '>' then some 0 else none)
  | _ => none

/-- `title.lstrip("<").rstrip(">").strip()` is non-empty. -/
def titleHasContent (t : List Char) : Bool :=
  hasContentPy (((t.dropWhile (fun c => c = '<')).reverse.dropWhile
    (fun c => c = '>')).reverse)

/-- Scan for a match of `<<[^\n]+>>` whose content survives
`lstrip("<").rstrip(">").strip()`: the greedy `[^\n]+` pairs a `<<` with
the rightmost `>>` on the same line, the scan resumes after each match,
and on failure advances one character. -/
def titleScanAux : Nat → List Char → Bool
  | _, [] => false
  | 0, _ => false
  | fuel + 1, '<' :: '<' :: rest =>
    (match lastDoubleGt (rest.takeWhile (fun c => !(c = '\n'))) with
     | some i =>
       if 1 ≤ i then
         if titleHasContent ('<' :: '<' :: (rest.take i ++ ['>', '>'])) then true
         else titleScanAux fuel (rest.drop (i + 2))
       else titleScanAux fuel ('<' :: rest)
     | none => titleScanAux fuel ('<' :: rest))
  | fuel + 1, _ :: rest => titleScanAux fuel rest

/-- `TitleFormatChecker.check_following`. -/
def title_format_check (arg_value : List Char) : Bool :=
  titleScanAux arg_value.length arg_value

/-- `HighlightedSectionsCountChecker.check_following`. -/
def highlighted_sections_check (comparison_option : ComparisonOption) (N : Nat)
    (arg_value : List Char) : Bool :=
  compare_count (count_highlighted_sections arg_value) N comparison_option

/-- A cased character, modelled over the ASCII range. -/
def isCasedAscii (c : Char) : Bool := c.isAlpha

/-- Python `str.isupper`: at least one cased character and no cased
character is lowercase. -/
def pyIsUpper (l : List Char) : Bool :=
  l.any isCasedAscii && l.all (fun c => !(isCasedAscii c) || c.isUpper)

/-- Python `str.islower`. -/
def pyIsLower (l : List Char) : Bool :=
  l.any isCasedAscii && l.all (fun c => !(isCasedAscii c) || c.isLower)

/-- `AllUppercaseChecker.check_following`. -/
def all_uppercase_check (arg_value : List Char) : Bool := pyIsUpper arg_value

/-- `AllLowercaseChecker.check_following`. -/
def all_lowercase_check (arg_value : List Char) : Bool := pyIsLower arg_value

/-- `NAllCapitalWordsChecker.check_following`: tokenize without
lower-casing, count the fully-uppercase tokens. -/
def n_all_capital_words_check (comparison_option : ComparisonOption) (N : Nat)
    (arg_value : List Char) : Bool :=
  let words := clean_and_split arg_value false
  compare_count (words.countP pyIsUpper) N comparison_option

/-- `EndPhraseChecker.check_following`: strip and lower-case both the
value and the phrase, then test the suffix. -/
def end_phrase_check (end_phrase : List Char) (arg_value : List Char) : Bool :=
  ((pyStrip end_phrase).map pyLower).isSuffixOf ((pyStrip arg_value).map pyLower)

/-- The quotation-type parameter of `QuotationChecker`. -/
inductive QuotationType where
  | single
  | double
deriving DecidableEq, Repr

/-- `QuotationChecker.check_following`. -/
def quotation_check (quotation_type : QuotationType) (arg_value : List Char) : Bool :=
  let mark : Char := match quotation_type with
    | QuotationType.double => '\x22'
    | QuotationType.single => '\x27'
  [mark].isPrefixOf arg_value && [mark].isSuffixOf arg_value &&
    decide (2 ≤ arg_value.length)

/-- `NCommasChecker.check_following`. -/
def n_commas_check (comparison_option : ComparisonOption) (N : Nat)
    (arg_value : List Char) : Bool :=
  compare_count (arg_value.count ',') N comparison_option

/-!  ## The 19-variant registry (`get_all_checkers`) and the
construction-time sampling of the sentence-count variant -/

/-- The parameter record of a constraint instance: one constructor per
variant of the registry returned by `get_all_checkers`, in source
order, carrying the parameter mapping its `check_following` reads. -/
inductive CheckerArgs where
  | keywordsPresence (list_of_keywords : List (List Char)) (must_include : Bool)
  | keywordFrequency (keyword : List Char) (N : Nat) (comparison_option : ComparisonOption)
  | letterFrequency (letter : Char) (N : Nat) (comparison_option : ComparisonOption)
  | cyrillicGreek (script : ScriptKind)
  | wordCount (N : Nat) (comparison_option : ComparisonOption)
  | sentenceCount (N : Nat) (comparison_option : ComparisonOption)
  | postscript (postscript_marker : PostscriptMarker)
  | placeholderCount (comparison_option : ComparisonOption) (N : Nat)
  | spacesInBetween (N : Nat)
  | titleFormat
  | highlightedSections (comparison_option : ComparisonOption) (N : Nat)
  | jsonFormat
  | pythonListFormat
  | allUppercase
  | allLowercase
  | nAllCapitalWords (comparison_option : ComparisonOption) (N : Nat)
  | endPhrase (end_phrase : List Char)
  | quotation (quotation_type : QuotationType)
  | nCommas (comparison_option : ComparisonOption) (N : Nat)

/-- A constraint instance: its parameter record and its rendered
description, the two attributes a `BaseChecker` instance holds. -/
structure CheckerState where
  arguments : CheckerArgs
  description : List Char

/-- The compliance predicate of each variant, dispatching on the
parameter record (parametric in the `ast.literal_eval` outcome model
used by the list-literal variant): every variant except the
list-literal one always returns a boolean, and the list-literal one
propagates an uncaught parser exception. -/
def check_value (literalEval : List Char → PyResult) :
    CheckerArgs → List Char → CheckOutcome
  | CheckerArgs.keywordsPresence kws inc, arg =>
    CheckOutcome.ret (keywords_presence_check kws inc arg)
  | CheckerArgs.keywordFrequency kw N c, arg =>
    CheckOutcome.ret (keyword_frequency_check kw N c arg)
  | CheckerArgs.letterFrequency ch N c, arg =>
    CheckOutcome.ret (letter_frequency_check ch N c arg)
  | CheckerArgs.cyrillicGreek s, arg =>
    CheckOutcome.ret (cyrillic_greek_check s arg)
  | CheckerArgs.wordCount N c, arg =>
    CheckOutcome.ret (word_count_check N c arg)
  | CheckerArgs.sentenceCount N c, arg =>
    CheckOutcome.ret (sentence_count_check N c arg)
  | CheckerArgs.postscript m, arg =>
    CheckOutcome.ret (check_postscript arg m)
  | CheckerArgs.placeholderCount c N, arg =>
    CheckOutcome.ret (placeholder_count_check c N arg)
  | CheckerArgs.spacesInBetween N, arg =>
    CheckOutcome.ret (spaces_in_between_check N arg)
  | CheckerArgs.titleFormat, arg =>
    CheckOutcome.ret (title_format_check arg)
  | CheckerArgs.highlightedSections c N, arg =>
    CheckOutcome.ret (highlighted_sections_check c N arg)
  | CheckerArgs.jsonFormat, arg =>
    CheckOutcome.ret (json_format_check arg)
  | CheckerArgs.pythonListFormat, arg => python_list_check_run literalEval arg
  | CheckerArgs.allUppercase, arg =>
    CheckOutcome.ret (all_uppercase_check arg)
  | CheckerArgs.allLowercase, arg =>
    CheckOutcome.ret (all_lowercase_check arg)
  | CheckerArgs.nAllCapitalWords c N, arg =>
    CheckOutcome.ret (n_all_capital_words_check c N arg)
  | CheckerArgs.endPhrase p, arg =>
    CheckOutcome.ret (end_phrase_check p arg)
  | CheckerArgs.quotation q, arg =>
    CheckOutcome.ret (quotation_check q arg)
  | CheckerArgs.nCommas c N, arg =>
    CheckOutcome.ret (n_commas_check c N arg)

/-- `BaseChecker.check_following` as a state transformer: the check
reads the instance's parameters and returns its outcome (a boolean for
every variant, except that the list-literal variant's outcome is an
exception when its parser raises one the `except` clause misses); no
attribute of the instance is assigned anywhere in any variant's body,
so the instance is returned unchanged. -/
def check_following_run (literalEval : List Char → PyResult)
    (st : CheckerState) (arg_value : List Char) : CheckOutcome × CheckerState :=
  (check_value literalEval st.arguments arg_value, st)

/-- `utils.sample_comparison_option`: the pool `random.choice` draws
from, given the optional ignore list. -/
def sample_comparison_option_pool
    (ignore_options : Option (List ComparisonOption)) : List ComparisonOption :=
  match ignore_options with
  | none => COMPARISON_OPTIONS
  | some ig => COMPARISON_OPTIONS.filter (fun o => !(ig.contains o))

/-- The ignore list `SentenceCountChecker.sample_arguments` passes. -/
def sentenceCount_ignore_options : List ComparisonOption :=
  [ComparisonOption.exactly]

/-- The pool the sentence-count variant samples its comparison option
from. -/
def sentenceCount_sample_pool : List ComparisonOption :=
  sample_comparison_option_pool (some sentenceCount_ignore_options)

/-- `SentenceCountChecker.sample_arguments`, with the two random draws
made explicit: `i` selects the comparison option from the pool
(`random.choice`) and `r` drives the `randint` bound for `N`
(`randint(a, b)` modelled as `a + r % (b - a + 1)`). -/
def sentenceCount_sample_arguments (i : Fin sentenceCount_sample_pool.length)
    (r : Nat) : Nat × ComparisonOption :=
  let comparison_option := sentenceCount_sample_pool.get i
  match comparison_option with
  | ComparisonOption.atLeast => (1 + r % 8, comparison_option)
  | ComparisonOption.atMost => (1 + r % 4, comparison_option)
  | ComparisonOption.exactly => (1 + r % 5, comparison_option)

end IFEvalFC

namespace IFEvalFC

example : json_loads_ok ("\x7b\x22a\x22: 1, \x22b\x22: [true, null, 2.5e-1]\x7d".data) = true := by decide
example : json_loads_ok ("\x7b\x22a\x22:1".data) = false := by decide
example : json_loads_ok ("\x7b\x22a\x22:1,\x7d".data) = false := by decide
example : json_loads_ok ("not json".data) = false := by decide
example : json_loads_ok ("".data) = false := by decide
example : json_loads_ok ("123".data) = true := by decide
example : json_loads_ok ("-Infinity".data) = true := by decide
example : json_loads_ok ("0123".data) = false := by decide
example : json_format_check ("```json\n\x7b\x22a\x22:1\x7d\n```".data) = true := by decide
example : json_format_check ("```JSON\n\x7b\x22a\x22:1\x7d\n```".data) = true := by decide
example : json_format_check ("```jSoN\n[1]\n```".data) = false := by decide
example : json_format_check ("\x7b\x22a\x22:1".data) = false := by decide

example : check_postscript ("This is a letter. P.S. Do not forget to call.".data) PostscriptMarker.ps = true := by decide
example : check_postscript ("P. S. This is a postscript.".data) PostscriptMarker.ps = true := by decide
example : check_postscript ("This is a letter.".data) PostscriptMarker.ps = false := by decide
example : check_postscript ("PS. This is not valid.".data) PostscriptMarker.ps = false := by decide
example : check_postscript ("P. S S. Something.".data) PostscriptMarker.ps = false := by decide
example : check_postscript ("P.S. This is a postscript.".data) PostscriptMarker.pps = false := by decide
example : check_postscript ("P. P. S. Something.".data) PostscriptMarker.pps = true := by decide
example : check_postscript ("PPS. This is not valid.".data) PostscriptMarker.pps = false := by decide
example : check_postscript ("P.S. call me\nGoodbye.".data) PostscriptMarker.ps = true := by decide
example : postscript_at_end ("P.S. call me\nGoodbye.".data) PostscriptMarker.ps = false := by decide
example : postscript_at_end ("Bye. P.S. call me".data) PostscriptMarker.ps = true := by decide

end IFEvalFC

namespace IFEvalFC

example : count_highlighted_sections ("*a*b* *c*".data) = 1 := by decide
example : extract_sentences ("Hello. World. Again.".data) =
    ["Hello.".data, "World.".data, "Again.".data] := by decide
example : extract_sentences ("Hello.".data) = ["Hello.".data] := by decide
example : sentence_count_check 2 ComparisonOption.atLeast ("Hello. World. Again.".data) = true := by decide
example : sentence_count_check 2 ComparisonOption.atLeast ("Hello.".data) = false := by decide
example : (extract_sentences ("Hi! Bye.".data)).length = 2 := by decide
example : (extract_sentences ("A. B.".data)).length = 1 := by decide
example : (extract_sentences ("".data)).length = 0 := by decide
example : spaces_in_between_check 5 ("a     b".data) = true := by decide
example : spaces_in_between_check 5 ("a    b".data) = false := by decide
example : spaces_in_between_check 5 ("a      b".data) = false := by decide
example : keywords_presence_check ["cat".data] true ("cats".data) = false := by decide
example : keywords_presence_check ["cat".data] true ("(CaT)!".data) = true := by decide
example : keyword_frequency_check ("cat".data) 2 ComparisonOption.exactly ("Cat, cat.".data) = true := by decide
example : keyword_frequency_check ("cat".data) 2 ComparisonOption.exactly ("cat cat cat".data) = false := by decide
example : letter_frequency_check 'a' 2 ComparisonOption.exactly ("aA".data) = true := by decide
example : cyrillic_greek_check ScriptKind.cyrillic ("Привет, 123!".data) = true := by decide
example : cyrillic_greek_check ScriptKind.cyrillic ("Привет Hello".data) = false := by decide
example : cyrillic_greek_check ScriptKind.greek ("Καλημέρα".data) = true := by decide
example : cyrillic_greek_check ScriptKind.greek ("Καλημέρα123abc".data) = false := by decide
example : cyrillic_greek_check ScriptKind.cyrillic ("".data) = true := by decide
example : word_count_check 3 ComparisonOption.exactly ("one. two. three.".data) = true := by decide
example : word_count_check 3 ComparisonOption.exactly ("one two".data) = false := by decide
example : placeholder_count_check ComparisonOption.exactly 2 ("[a] and [b]".data) = true := by decide
example : title_format_check ("my <<poem of joy>> here".data) = true := by decide
example : title_format_check ("no title <<>> empty".data) = false := by decide
example : all_uppercase_check ("HELLO 123!".data) = true := by decide
example : all_uppercase_check ("Hello".data) = false := by decide
example : all_lowercase_check ("hello".data) = true := by decide
example : n_all_capital_words_check ComparisonOption.exactly 2 ("ONE two THREE four".data) = true := by decide
example : end_phrase_check ("that's it".data) ("Done. THAT'S IT  ".data) = true := by decide
example : quotation_check QuotationType.double ("\x22quoted\x22".data) = true := by decide
example : quotation_check QuotationType.double ("unquoted".data) = false := by decide
example : n_commas_check ComparisonOption.exactly 2 (", ,".data) = true := by decide
example : python_list_check_run (fun _ => PyResult.ok (PyVal.vlist [PyVal.vstr "a".data]))
    ("```python\n[\x22a\x22]\n```".data) = CheckOutcome.ret true := by decide
example : python_list_check_run (fun _ => PyResult.ok PyVal.vother) ("3".data) =
    CheckOutcome.ret false := by decide
example : python_list_check_run (fun _ => PyResult.caught) ("not a list".data) =
    CheckOutcome.ret false := by decide
example : python_list_check_run (fun _ => PyResult.uncaught) ("\x7b[]: 0\x7d".data) =
    CheckOutcome.exn := by decide

/-- Claim C1: the highlight-span counter pairs asterisks greedily left to
right, not by balanced nesting.  On `"*a*b* *c*"` there are no
double-delimited spans, the single-star pass pairs the asterisks left to
right into `*a*` and the whitespace-only `* *`, and only the non-empty
span is counted, so the count is exactly 1. -/
theorem c1_highlight_greedy_pairing :
    count_highlighted_sections ("*a*b* *c*".data) = 1 ∧
    findDoubles ("*a*b* *c*".data) = [] ∧
    findSingles ("*a*b* *c*".data) = ["*a*".data, "* *".data] := by
  decide

/-- Claim C2: for the sentence-count constraint with `N = 2` and
comparison option `at least`, the check accepts `"Hello. World. Again."`
and rejects `"Hello."`; the segmenter yields three sentences for the
first string and exactly one for the second (the trailing empty fragment
after the final terminator is dropped). -/
theorem c2_sentence_count_scenario :
    sentence_count_check 2 ComparisonOption.atLeast ("Hello. World. Again.".data) = true ∧
    sentence_count_check 2 ComparisonOption.atLeast ("Hello.".data) = false ∧
    extract_sentences ("Hello. World. Again.".data) =
      ["Hello.".data, "World.".data, "Again.".data] ∧
    extract_sentences ("Hello.".data) = ["Hello.".data] := by
  decide

/-- Claim C3: the fixed-inter-word-spacing check with `N = 5` accepts
`"a"` + 5 spaces + `"b"`, rejects the 4-space and 6-space variants, and
any string that contains no space character and equals its own
whitespace-trim passes for every `N` (the check returns before ever
splitting). -/
theorem c3_spaces_in_between :
    spaces_in_between_check 5 ("a     b".data) = true ∧
    spaces_in_between_check 5 ("a    b".data) = false ∧
    spaces_in_between_check 5 ("a      b".data) = false ∧
    ∀ (N : Nat) (s : List Char),
      s.contains ' ' = false → s = pyStrip s →
      spaces_in_between_check N s = true := by
  refine ⟨by decide, by decide, by decide, ?_⟩
  intro N s hc hs
  simp only [spaces_in_between_check, ← hs]
  have hm : ' ' ∉ s := by
    intro hmem
    rw [show s.contains ' ' = s.elem ' ' from rfl, List.elem_eq_true_of_mem hmem] at hc
    exact absurd hc (by decide)
  simp [hm]

/-- Claim C3, witness: the universal part applied at `N = 7` and the
space-free string `"abc"`. -/
theorem c3_spaces_in_between_witness :
    spaces_in_between_check 7 ("abc".data) = true :=
  c3_spaces_in_between.2.2.2 7 ("abc".data) (by decide) (by decide)

/-!  ### Tokenizer lemmas, for the whole-word keyword property -/

/-- A character with code point in an ASCII letter range is neither
punctuation nor whitespace. -/
theorem ascii_alpha_classes {c : Char}
    (h : (65 ≤ c.toNat ∧ c.toNat ≤ 90) ∨ (97 ≤ c.toNat ∧ c.toNat ≤ 122)) :
    isPunctPy c = false ∧ isSpacePy c = false := by
  unfold isPunctPy isSpacePy
  constructor
  · simp only [Bool.or_eq_false_iff, decide_eq_false_iff_not]
    omega
  · simp only [Bool.or_eq_false_iff, decide_eq_false_iff_not, beq_eq_false_iff_ne,
      ne_eq]
    omega

/-- `pyLower` fixes a character whose code point is in the lowercase
ASCII letter range. -/
theorem pyLower_fixed_of_lower {c : Char}
    (h1 : 97 ≤ c.toNat) (h2 : c.toNat ≤ 122) : pyLower c = c := by
  unfold pyLower
  split
  all_goals first | rfl | (revert h1 h2; decide)

/-- `pyLower` maps no non-whitespace character to whitespace. -/
theorem pyLower_not_ws {c : Char} (h : isSpacePy c = false) :
    isSpacePy (pyLower c) = false := by
  unfold pyLower
  split
  all_goals first | decide | assumption

/-- Every character is either fixed by `pyLower` or an uppercase ASCII
letter. -/
theorem pyLower_cases (c : Char) :
    pyLower c = c ∨ (65 ≤ c.toNat ∧ c.toNat ≤ 90) := by
  unfold pyLower
  split
  all_goals first | exact Or.inl rfl | exact Or.inr (by decide)

/-- A character whose `pyLower` image is a lowercase ASCII letter is
itself neither punctuation nor whitespace. -/
theorem pyLower_source_classes {c : Char}
    (h1 : 97 ≤ (pyLower c).toNat) (h2 : (pyLower c).toNat ≤ 122) :
    isPunctPy c = false ∧ isSpacePy c = false := by
  rcases pyLower_cases c with h | h
  · rw [h] at h1 h2
    exact ascii_alpha_classes (Or.inr ⟨h1, h2⟩)
  · exact ascii_alpha_classes (Or.inl h)

/-- `pyLower` is the identity on a string of lowercase ASCII letters. -/
theorem map_pyLower_fixed {k : List Char}
    (h : ∀ c ∈ k, 97 ≤ c.toNat ∧ c.toNat ≤ 122) : k.map pyLower = k := by
  induction k with
  | nil => rfl
  | cons c t ih =>
    have hc := h c (by simp)
    simp only [List.map_cons]
    rw [pyLower_fixed_of_lower hc.1 hc.2, ih (fun x hx => h x (by simp [hx]))]

/-- The punctuation-to-space translation fixes a punctuation-free
string. -/
theorem translate_eq_self {l : List Char}
    (h : ∀ c ∈ l, isPunctPy c = false) :
    l.map (fun c => if isPunctPy c then ' ' else c) = l := by
  induction l with
  | nil => rfl
  | cons c t ih =>
    have hc := h c (by simp)
    simp only [List.map_cons, hc, if_false, Bool.false_eq_true]
    rw [ih (fun x hx => h x (by simp [hx]))]

/-- `splitWsAux` on a whitespace-free input returns the accumulated
token followed by the input, as a single token (or nothing when both
are empty). -/
theorem splitWsAux_nonws {l : List Char}
    (h : ∀ c ∈ l, isSpacePy c = false) :
    ∀ acc, splitWsAux l acc =
      if (acc.reverse ++ l).isEmpty then [] else [acc.reverse ++ l] := by
  induction l with
  | nil =>
    intro acc
    simp [splitWsAux, List.isEmpty_iff]
  | cons c t ih =>
    intro acc
    have hc := h c (by simp)
    rw [splitWsAux, hc]
    simp only [Bool.false_eq_true, if_false]
    rw [ih (fun x hx => h x (by simp [hx])) (c :: acc)]
    simp [List.isEmpty_iff]

/-- `splitWsAux` on an all-whitespace input flushes the accumulator. -/
theorem splitWsAux_allws {w : List Char}
    (h : ∀ c ∈ w, isSpacePy c = true) :
    ∀ acc, splitWsAux w acc = if acc.isEmpty then [] else [acc.reverse] := by
  induction w with
  | nil => intro acc; rfl
  | cons c t ih =>
    intro acc
    have hc := h c (by simp)
    rw [splitWsAux, hc]
    simp only [if_true]
    have ht := ih (fun x hx => h x (by simp [hx]))
    cases acc with
    | nil => simpa using ht []
    | cons a as =>
      simp only [List.isEmpty_cons, Bool.false_eq_true, if_false]
      rw [ht []]
      rfl

/-- `splitWsAux` consumes a whitespace-free token into the
accumulator. -/
theorem splitWsAux_token {t : List Char}
    (h : ∀ c ∈ t, isSpacePy c = false) :
    ∀ l acc, splitWsAux (t ++ l) acc = splitWsAux l (t.reverse ++ acc) := by
  induction t with
  | nil => intro l acc; rfl
  | cons c u ih =>
    intro l acc
    have hc := h c (by simp)
    rw [List.cons_append, splitWsAux, hc]
    simp only [Bool.false_eq_true, if_false]
    rw [ih (fun x hx => h x (by simp [hx])) l (c :: acc)]
    simp

/-- `splitWsAux` skips leading whitespace when the accumulator is
empty. -/
theorem splitWsAux_ws_prefix {w : List Char}
    (h : ∀ c ∈ w, isSpacePy c = true) :
    ∀ l, splitWsAux (w ++ l) [] = splitWsAux l [] := by
  induction w with
  | nil => intro l; rfl
  | cons c u ih =>
    intro l
    have hc := h c (by simp)
    rw [List.cons_append, splitWsAux, hc]
    simp only [if_true, List.isEmpty_nil]
    exact ih (fun x hx => h x (by simp [hx])) l

/-- `str.split()` of a non-empty whitespace-free string is the string
itself, as a single token. -/
theorem pySplitWs_single {t : List Char} (hne : t ≠ [])
    (h : ∀ c ∈ t, isSpacePy c = false) : pySplitWs t = [t] := by
  rw [pySplitWs, splitWsAux_nonws h []]
  simp [List.isEmpty_iff, hne]

/-- `str.split()` of a non-empty whitespace-free token padded with
whitespace on both sides is the token alone. -/
theorem pySplitWs_padded {w1 w2 t : List Char}
    (h1 : ∀ c ∈ w1, isSpacePy c = true) (h2 : ∀ c ∈ w2, isSpacePy c = true)
    (hne : t ≠ []) (ht : ∀ c ∈ t, isSpacePy c = false) :
    pySplitWs (w1 ++ (t ++ w2)) = [t] := by
  rw [pySplitWs, splitWsAux_ws_prefix h1, splitWsAux_token ht w2 [],
    splitWsAux_allws h2]
  simp [List.isEmpty_iff, hne]

/-- `listMem` on a one-element list is equality with that element. -/
theorem listMem_singleton (x t : List Char) :
    listMem x [t] = decide (t = x) := by
  simp [listMem]

/-- `keywords_presence_check` over a single keyword with the inclusion
flag reduces to membership of the lowered keyword among the tokens. -/
theorem keywords_presence_check_singleton (k arg : List Char) :
    keywords_presence_check [k] true arg =
      listMem (k.map pyLower) (clean_and_split arg true) := by
  simp [keywords_presence_check]

/-- Claim C4: keyword matching is whole-word, never substring.  For a
non-empty lowercase-ASCII keyword `k`: appending any non-empty suffix of
non-whitespace, non-punctuation characters defeats the presence check;
while `k` alone, `k` surrounded by punctuation, and any case variant of
`k` (a string whose per-character `lower` image is `k`) all pass. -/
theorem c4_keywords_whole_word
    (k suffix p1 p2 w : List Char)
    (hk : k ≠ [])
    (hkc : ∀ c ∈ k, 97 ≤ c.toNat ∧ c.toNat ≤ 122)
    (hs : suffix ≠ [])
    (hsc : ∀ c ∈ suffix, isSpacePy c = false ∧ isPunctPy c = false)
    (hp1 : ∀ c ∈ p1, isPunctPy c = true)
    (hp2 : ∀ c ∈ p2, isPunctPy c = true)
    (hw : w.map pyLower = k) :
    keywords_presence_check [k] true (k ++ suffix) = false ∧
    keywords_presence_check [k] true k = true ∧
    keywords_presence_check [k] true (p1 ++ (k ++ p2)) = true ∧
    keywords_presence_check [k] true w = true := by
  have hk_nopunct : ∀ c ∈ k, isPunctPy c = false := fun c hc =>
    (ascii_alpha_classes (Or.inr (hkc c hc))).1
  have hk_nows : ∀ c ∈ k, isSpacePy c = false := fun c hc =>
    (ascii_alpha_classes (Or.inr (hkc c hc))).2
  have hk_lower : k.map pyLower = k := map_pyLower_fixed hkc
  refine ⟨?_, ?_, ?_, ?_⟩
  · -- `k ++ suffix` tokenizes to the single longer token `k ++ suffix'`
    rw [keywords_presence_check_singleton, hk_lower]
    have htr : (k ++ suffix).map (fun c => if isPunctPy c then ' ' else c) =
        k ++ suffix := by
      refine translate_eq_self (fun c hc => ?_)
      rcases List.mem_append.mp hc with h | h
      · exact hk_nopunct c h
      · exact (hsc c h).2
    have hlow : (k ++ suffix).map pyLower = k ++ suffix.map pyLower := by
      rw [List.map_append, hk_lower]
    have hsplit : pySplitWs (k ++ suffix.map pyLower) = [k ++ suffix.map pyLower] := by
      refine pySplitWs_single (by simp [hk]) (fun c hc => ?_)
      rcases List.mem_append.mp hc with h | h
      · exact hk_nows c h
      · obtain ⟨d, hd, rfl⟩ := List.mem_map.mp h
        exact pyLower_not_ws (hsc d hd).1
    rw [clean_and_split, if_pos rfl, htr, hlow, hsplit, listMem_singleton]
    simp only [decide_eq_false_iff_not]
    intro habs
    have : suffix.map pyLower = [] :=
      List.append_cancel_left (habs.trans (List.append_nil k).symm)
    exact hs (List.map_eq_nil_iff.mp this)
  · -- `k` alone tokenizes to `[k]`
    rw [keywords_presence_check_singleton, hk_lower, clean_and_split, if_pos rfl,
      translate_eq_self hk_nopunct, hk_lower, pySplitWs_single hk hk_nows,
      listMem_singleton]
    simp
  · -- punctuation around `k` becomes whitespace padding
    rw [keywords_presence_check_singleton, hk_lower, clean_and_split, if_pos rfl]
    have hmap : ((p1 ++ (k ++ p2)).map (fun c => if isPunctPy c then ' ' else c)).map
        pyLower =
        (p1.map (fun c => if isPunctPy c then ' ' else c)).map pyLower ++
          (k ++ (p2.map (fun c => if isPunctPy c then ' ' else c)).map pyLower) := by
      simp only [List.map_append]
      rw [translate_eq_self hk_nopunct, hk_lower]
    rw [hmap, pySplitWs_padded ?_ ?_ hk hk_nows, listMem_singleton]
    · simp
    · intro c hc
      obtain ⟨d, hd, rfl⟩ := List.mem_map.mp hc
      obtain ⟨e, he, rfl⟩ := List.mem_map.mp hd
      rw [hp1 e he, if_pos rfl]
      decide
    · intro c hc
      obtain ⟨d, hd, rfl⟩ := List.mem_map.mp hc
      obtain ⟨e, he, rfl⟩ := List.mem_map.mp hd
      rw [hp2 e he, if_pos rfl]
      decide
  · -- a case variant lowers to `k` and tokenizes to `[k]`
    have hwc : ∀ c ∈ w, isPunctPy c = false ∧ isSpacePy c = false := by
      intro c hc
      have : pyLower c ∈ k := hw ▸ List.mem_map_of_mem pyLower hc
      exact pyLower_source_classes (hkc _ this).1 (hkc _ this).2
    rw [keywords_presence_check_singleton, hk_lower, clean_and_split, if_pos rfl,
      translate_eq_self (fun c hc => (hwc c hc).1), hw,
      pySplitWs_single hk hk_nows, listMem_singleton]
    simp

/-- Claim C4, witness: the theorem applied at `k = "cat"`,
`suffix = "s"`, punctuation `"("` and `").",` and case variant
`"CaT"`. -/
theorem c4_keywords_whole_word_witness :
    keywords_presence_check ["cat".data] true ("cats".data) = false ∧
    keywords_presence_check ["cat".data] true ("cat".data) = true ∧
    keywords_presence_check ["cat".data] true ("(cat).".data) = true ∧
    keywords_presence_check ["cat".data] true ("CaT".data) = true := by
  have h := c4_keywords_whole_word ("cat".data) ("s".data) ("(".data) (").".data)
    ("CaT".data) (by decide) (by decide) (by decide) (by decide) (by decide)
    (by decide) (by decide)
  exact h

/-!  ### JSON fence lemmas, for the code-fence casing claim -/

/-- `jsonValue` fails on a backtick head: no branch of the scanner
dispatch accepts it. -/
theorem jsonValue_btk (f : Nat) (t : List Char) :
    jsonValue f ('\x60' :: t) = none := by
  cases f with
  | zero => rfl
  | succ f => rfl

/-- A string accepted by `json.loads` is non-empty. -/
theorem json_ok_ne_nil {l : List Char} (h : json_loads_ok l = true) :
    l ≠ [] := by
  intro he
  subst he
  exact absurd h (by decide)

/-- A string accepted by `json.loads` does not start with a backtick. -/
theorem json_ok_head_ne_btk {l : List Char} (h : json_loads_ok l = true) :
    l.head? ≠ some '\x60' := by
  intro hh
  cases l with
  | nil => simp at hh
  | cons c t =>
    simp only [List.head?_cons, Option.some.injEq] at hh
    subst hh
    have h1 : skipJsonWs ('\x60' :: t) = '\x60' :: t := by
      rw [skipJsonWs, List.dropWhile_cons, if_neg (by decide)]
    rw [json_loads_ok, h1, jsonValue_btk] at h
    exact absurd h (by decide)

/-- The right-strip is a prefix of its input. -/
theorem pyStripRight_prefix (m : List Char) : pyStripRight m <+: m := by
  rw [pyStripRight]
  have h := List.dropWhile_suffix (l := m.reverse) isSpacePy
  have h2 := List.reverse_prefix.mpr h
  simpa using h2

/-- When the head is not whitespace, the strip is empty or keeps the
head. -/
theorem pyStrip_head {c : Char} {t : List Char} (hc : isSpacePy c = false) :
    pyStrip (c :: t) = [] ∨ (pyStrip (c :: t)).head? = some c := by
  rw [pyStrip, pyStripLeft, List.dropWhile_cons, if_neg (by simp [hc])]
  rcases pyStripRight_prefix (c :: t) with ⟨r, hr⟩
  cases hpr : pyStripRight (c :: t) with
  | nil => exact Or.inl rfl
  | cons a as =>
    right
    rw [hpr, List.cons_append] at hr
    rw [List.head?_cons, (List.cons.injEq _ _ _ _ |>.mp hr).1]

/-- A string is fixed by `pyStrip` when both its ends are
non-whitespace. -/
theorem pyStrip_eq_self {l : List Char}
    (h1 : ∀ c, l.head? = some c → isSpacePy c = false)
    (h2 : ∀ c, l.getLast? = some c → isSpacePy c = false) :
    pyStrip l = l := by
  cases l with
  | nil => rfl
  | cons c t =>
    rw [pyStrip, pyStripLeft, List.dropWhile_cons, if_neg (by simp [h1 c rfl])]
    rw [pyStripRight]
    cases hr : (c :: t).reverse with
    | nil => simp at hr
    | cons a as =>
      have ha : (c :: t).getLast? = some a := by
        rw [← List.head?_reverse, hr, List.head?_cons]
      rw [List.dropWhile_cons, if_neg (by simp [h2 a ha]), ← hr,
        List.reverse_reverse]

/-- A literal prefix is detected on its own append. -/
theorem isPrefixOf_append_self (pre X : List Char) :
    pre.isPrefixOf (pre ++ X) = true := by
  simp

/-- `removeprefix` strips its own append. -/
theorem removePrefixIf_append (pre X : List Char) :
    removePrefixIf pre (pre ++ X) = X := by
  rw [removePrefixIf, if_pos (by simp), List.drop_left]

/-- `removeprefix` is the identity when the prefix is absent. -/
theorem removePrefixIf_of_ne {pre l : List Char}
    (h : pre.isPrefixOf l = false) : removePrefixIf pre l = l := by
  rw [removePrefixIf, if_neg]
  simp [h]

/-- `removesuffix` strips its own append. -/
theorem removeSuffixIf_append (X suf : List Char) :
    removeSuffixIf suf (X ++ suf) = X := by
  rw [removeSuffixIf, if_pos (by simp), List.length_append,
    Nat.add_sub_cancel, List.take_left]

/-- A pattern starting with a backtick is no prefix of `s ++ X` when
`s` is non-empty and does not start with a backtick. -/
theorem not_prefix_of_btk_head {s X pre : List Char} (hne : s ≠ [])
    (hh : ∀ c, s.head? = some c → c ≠ '\x60')
    (hpre : pre.head? = some '\x60') :
    pre.isPrefixOf (s ++ X) = false := by
  cases s with
  | nil => exact absurd rfl hne
  | cons c t =>
    cases pre with
    | nil => simp at hpre
    | cons p ps =>
      simp only [List.head?_cons, Option.some.injEq] at hpre
      subst hpre
      have hc : c ≠ '\x60' := hh c rfl
      rw [List.cons_append]
      cases habs : ('\x60' :: ps).isPrefixOf (c :: (t ++ X)) with
      | false => rfl
      | true =>
        rw [List.isPrefixOf_iff_prefix] at habs
        exact absurd (List.cons_prefix_cons.mp habs).1.symm hc

/-- The head characters of a string whose strip `json.loads` accepts
are never backticks (whitespace heads are not backticks, and the first
non-whitespace character is the head of the strip). -/
theorem wrapped_head_ne_btk {s : List Char}
    (hP : json_loads_ok (pyStrip s) = true) :
    s ≠ [] ∧ ∀ c, s.head? = some c → c ≠ '\x60' := by
  constructor
  · intro he
    subst he
    exact absurd hP (by decide)
  · intro c hc heq
    subst heq
    cases s with
    | nil => simp at hc
    | cons a t =>
      simp only [List.head?_cons, Option.some.injEq] at hc
      subst hc
      have hws : isSpacePy '\x60' = false := by decide
      rcases pyStrip_head (t := t) hws with h | h
      · exact json_ok_ne_nil hP h
      · exact json_ok_head_ne_btk hP h

/-- The full fence-stripping chain on a tagged wrap `tag ++ s ++ "```"`
recovers `pyStrip s`, for each of the three accepted tag casings. -/
theorem jsonStripFences_wrap {s : List Char}
    (hP : json_loads_ok (pyStrip s) = true) :
    jsonStripFences ("```json".data ++ (s ++ "```".data)) = pyStrip s ∧
    jsonStripFences ("```Json".data ++ (s ++ "```".data)) = pyStrip s ∧
    jsonStripFences ("```JSON".data ++ (s ++ "```".data)) = pyStrip s := by
  obtain ⟨hne, hh⟩ := wrapped_head_ne_btk hP
  have hnp : ∀ pre : List Char, pre.head? = some '\x60' →
      pre.isPrefixOf (s ++ "```".data) = false :=
    fun pre hpre => not_prefix_of_btk_head hne hh hpre
  have hsuf : removeSuffixIf "```".data (s ++ "```".data) = s :=
    removeSuffixIf_append s ("```".data)
  have hstrip : ∀ tag : List Char, tag.head? = some '\x60' →
      pyStrip (tag ++ (s ++ "```".data)) = tag ++ (s ++ "```".data) := by
    intro tag ht1
    refine pyStrip_eq_self (fun c hc => ?_) (fun c hc => ?_)
    · cases tag with
      | nil => simp at ht1
      | cons a t =>
        simp only [List.head?_cons, Option.some.injEq] at ht1
        subst ht1
        rw [List.cons_append, List.head?_cons] at hc
        cases hc
        decide
    · have hlast : (s ++ "```".data).getLast? = some '\x60' := by
        rw [List.getLast?_append]
        rfl
      rw [List.getLast?_append, hlast, Option.or_some] at hc
      cases hc
      decide
  have hA1 : "```json".data.isPrefixOf ("```Json".data ++ (s ++ "```".data)) = false := rfl
  have hA2 : "```json".data.isPrefixOf ("```JSON".data ++ (s ++ "```".data)) = false := rfl
  have hA3 : "```Json".data.isPrefixOf ("```JSON".data ++ (s ++ "```".data)) = false := rfl
  refine ⟨?_, ?_, ?_⟩
  · rw [jsonStripFences, hstrip ("```json".data) rfl, removePrefixIf_append,
      removePrefixIf_of_ne (hnp ("```Json".data) rfl),
      removePrefixIf_of_ne (hnp ("```JSON".data) rfl),
      removePrefixIf_of_ne (hnp ("```".data) rfl), hsuf]
  · rw [jsonStripFences, hstrip ("```Json".data) rfl,
      removePrefixIf_of_ne hA1, removePrefixIf_append,
      removePrefixIf_of_ne (hnp ("```JSON".data) rfl),
      removePrefixIf_of_ne (hnp ("```".data) rfl), hsuf]
  · rw [jsonStripFences, hstrip ("```JSON".data) rfl,
      removePrefixIf_of_ne hA2, removePrefixIf_of_ne hA3, removePrefixIf_append,
      removePrefixIf_of_ne (hnp ("```".data) rfl), hsuf]

/-- Claim C5, counterexample: the claim says a fence tag in any casing
of `json` is accepted, but the code only strips the exact casings
`json`, `Json`, `JSON`: the valid JSON array `[1]` wrapped in a
```​`jSoN` fence is rejected. -/
theorem c5_json_fence_casing_counterexample :
    json_loads_ok ("[1]".data) = true ∧
    json_format_check ("```jSoN\n[1]\n```".data) = false := by
  decide

/-- Claim C5, amended: any string whose whitespace-trim `json.loads`
accepts, wrapped in a code fence whose opening tag is one of the three
casings `json`, `Json`, `JSON` that the code strips, passes the
JSON-format check; and truncated JSON such as `{"a":1` is rejected.
(Other casings such as `jSoN` are rejected — see the
counterexample.) -/
theorem c5_json_fence_amended :
    (∀ s : List Char, json_loads_ok (pyStrip s) = true →
      json_format_check ("```json".data ++ (s ++ "```".data)) = true ∧
      json_format_check ("```Json".data ++ (s ++ "```".data)) = true ∧
      json_format_check ("```JSON".data ++ (s ++ "```".data)) = true) ∧
    json_format_check ("\x7b\x22a\x22:1".data) = false := by
  refine ⟨?_, by decide⟩
  intro s hP
  obtain ⟨h1, h2, h3⟩ := jsonStripFences_wrap hP
  exact ⟨by rw [json_format_check, h1]; exact hP,
    by rw [json_format_check, h2]; exact hP,
    by rw [json_format_check, h3]; exact hP⟩

/-- Claim C5, witness: the amended theorem applied to the concrete JSON
object `{"a": 1}` (with surrounding newlines) in each accepted
casing. -/
theorem c5_json_fence_amended_witness :
    json_format_check ("```json".data ++ ("\n\x7b\x22a\x22: 1\x7d\n".data ++ "```".data)) = true ∧
    json_format_check ("```Json".data ++ ("\n\x7b\x22a\x22: 1\x7d\n".data ++ "```".data)) = true ∧
    json_format_check ("```JSON".data ++ ("\n\x7b\x22a\x22: 1\x7d\n".data ++ "```".data)) = true :=
  c5_json_fence_amended.1 ("\n\x7b\x22a\x22: 1\x7d\n".data) (by decide)

/-- Claim C6 (code bug): the claim and the source docstring say the
postscript check is a tail match — an occurrence whose following text
does not extend to the end of the whole string must not satisfy it — but
because the pattern's `.*$` is evaluated under `re.MULTILINE` the code
accepts a marker on any line: on `"P.S. call me\nGoodbye."` the code
returns true although no postscript extends to the end of the string
(the end-anchored reading is false there). -/
theorem c6_postscript_multiline_bug :
    check_postscript ("P.S. call me\nGoodbye.".data) PostscriptMarker.ps = true ∧
    postscript_at_end ("P.S. call me\nGoodbye.".data) PostscriptMarker.ps = false := by
  decide

/-- Claim C7 (code bug): the claim — and the spec's error-handling
design — say both structured-format checks return a boolean for every
input and never propagate an exception, but the list-literal check's
`except (ValueError, SyntaxError)` does not cover every exception
`ast.literal_eval` raises: on the fence-free input `"{[]: 0}"` the
literal parses and the `Dict` conversion raises `TypeError` (unhashable
list key), which propagates out of `check_following`.  First conjunct:
the stripping chain leaves that input unchanged, so it reaches the
parser verbatim.  Second conjunct: under any parser model that raises
an uncaught exception there — as CPython's does — the check's outcome
is the exception, not a boolean.  The remaining conjuncts are the
fragment of the claim the code does satisfy: a caught parse error or a
parsed value that is not a list of strings yields `false`, and an
unparsable JSON text yields `false`. -/
theorem c7_structured_checks_exception_bug :
    pythonListStripFences ("\x7b[]: 0\x7d".data) = ("\x7b[]: 0\x7d".data) ∧
    (∀ literalEval : List Char → PyResult,
      literalEval ("\x7b[]: 0\x7d".data) = PyResult.uncaught →
      python_list_check_run literalEval ("\x7b[]: 0\x7d".data) = CheckOutcome.exn) ∧
    (∀ (literalEval : List Char → PyResult) (arg : List Char),
      (literalEval (pythonListStripFences arg) = PyResult.caught →
        python_list_check_run literalEval arg = CheckOutcome.ret false) ∧
      (∀ p, literalEval (pythonListStripFences arg) = PyResult.ok p →
        pyValIsListOfStrs p = false →
        python_list_check_run literalEval arg = CheckOutcome.ret false) ∧
      (json_loads_ok (jsonStripFences arg) = false → json_format_check arg = false)) := by
  have hstrip : pythonListStripFences ("\x7b[]: 0\x7d".data) = ("\x7b[]: 0\x7d".data) := by
    decide
  refine ⟨hstrip, ?_, ?_⟩
  · intro literalEval h
    unfold python_list_check_run
    rw [hstrip, h]
  · intro literalEval arg
    refine ⟨?_, ?_, ?_⟩
    · intro h
      unfold python_list_check_run
      rw [h]
    · intro p hp hf
      unfold python_list_check_run
      rw [hp]
      exact congrArg CheckOutcome.ret hf
    · intro h
      simpa [json_format_check] using h

/-- Claim C7, witness: the theorem applied at concrete parser models
and inputs — a parser raising an uncaught exception on `"{[]: 0}"`
makes the check's outcome the exception; a caught parse error yields
`false`; and the JSON check is `false` on the unparsable `"x"`. -/
theorem c7_structured_checks_exception_bug_witness :
    python_list_check_run (fun _ => PyResult.uncaught) ("\x7b[]: 0\x7d".data) =
      CheckOutcome.exn ∧
    python_list_check_run (fun _ => PyResult.caught) ("x".data) =
      CheckOutcome.ret false ∧
    json_format_check ("x".data) = false := by
  refine ⟨c7_structured_checks_exception_bug.2.1 (fun _ => PyResult.uncaught) rfl,
    (c7_structured_checks_exception_bug.2.2 (fun _ => PyResult.caught) ("x".data)).1 rfl,
    (c7_structured_checks_exception_bug.2.2 (fun _ => PyResult.caught) ("x".data)).2.2
      (by decide)⟩

/-- Claim C8: the sentence-count variant samples its comparison option
from the pool obtained by removing `exactly` from the operator list, so
for every possible draw (an index into the pool for `random.choice` and
an arbitrary value driving `randint`) the sampled parameter set carries
`at most` or `at least`, never `exactly`. -/
theorem c8_sentence_count_never_exactly :
    sentenceCount_sample_pool = [ComparisonOption.atMost, ComparisonOption.atLeast] ∧
    ∀ (i : Fin sentenceCount_sample_pool.length) (r : Nat),
      (sentenceCount_sample_arguments i r).2 ≠ ComparisonOption.exactly ∧
      ((sentenceCount_sample_arguments i r).2 = ComparisonOption.atMost ∨
        (sentenceCount_sample_arguments i r).2 = ComparisonOption.atLeast) := by
  refine ⟨by decide, ?_⟩
  intro i r
  have h2 : (sentenceCount_sample_arguments i r).2 = sentenceCount_sample_pool.get i := by
    unfold sentenceCount_sample_arguments
    rcases h : sentenceCount_sample_pool.get i with _ | _ | _ <;> simp [h]
  rw [h2]
  clear h2
  revert i
  decide

/-- Claim C9: every variant's compliance check is deterministic and
pure.  Modelling `check_following` as a state transformer over the
instance (its parameter record and rendered description), evaluation
returns the instance unchanged, and a second evaluation on the returned
state yields the same outcome (the boolean each variant computes; for
the list-literal variant under an uncaught parser exception, the same
propagated exception) — for every variant of the 19-constructor
registry, every parameter record, every `ast.literal_eval` outcome
model, and every input string. -/
theorem c9_checks_deterministic_and_pure :
    ∀ (literalEval : List Char → PyResult) (st : CheckerState)
      (arg : List Char),
      (check_following_run literalEval st arg).2 = st ∧
      ((check_following_run literalEval st arg).2).arguments = st.arguments ∧
      ((check_following_run literalEval st arg).2).description = st.description ∧
      (check_following_run literalEval
          ((check_following_run literalEval st arg).2) arg).1 =
        (check_following_run literalEval st arg).1 := by
  intro literalEval st arg
  exact ⟨rfl, rfl, rfl, rfl⟩

/-- Claim C10: the JSON-format check accepts any string that parses as
any JSON value, including the scalars `123`, `null` and a quoted string
literal — while the variant's rendered description says the value must
be a valid JSON object. -/
theorem c10_json_accepts_scalars :
    json_format_check ("123".data) = true ∧
    json_format_check ("null".data) = true ∧
    json_format_check ("\x22hi\x22".data) = true ∧
    containsSub ("must be a valid JSON object".data) json_format_description = true := by
  decide

end IFEvalFC
